import Mathlib

/-!
Shallow embedding of the value-resolution core of django-configurations
(`configurations/values.py`) together with the injection wrapper of
`configurations/importer.py`, and proofs of the specification claims
about them.

Python strings are modelled by Lean `String`, the process environment by a
partial map `String → Option String`, exceptions by an explicit error type
threaded through `Except`.  The error classes live in `configurations/errors.py`,
which is not part of the sources at hand; they are modelled from the spec
(section 7, Error taxonomy).
-/

namespace Configurations

/-- The process environment variable table: a read-only key/value string
mapping (`os.environ`). -/
def Env : Type := String → Option String

/-- Modelled from the spec: the error taxonomy of `configurations/errors.py`
(not among the sources).  `retrievalError` models `ValueRetrievalError`
(a required environment variable is absent), `processingError` models
`ValueProcessingError` (a present raw string failed casting, validation or
parsing; carries the raw input and an optional explanatory message), and
`configurationError` models both the `ConfigurationError` of the spec and
Django's `ImproperlyConfigured` (a structural/setup problem).  `uncaught`
models any other Python exception escaping the code (by its class name). -/
inductive Err where
  | retrievalError : Err
  | processingError (raw : String) (msg : Option String) : Err
  | configurationError (msg : String) : Err
  | uncaught (excName : String) : Err
deriving DecidableEq, Repr

/-- Python truthiness of an optional string (`None` and the empty string are
falsy, every other string is truthy). -/
def pyTruthy : Option String → Bool
  | none => false
  | some s => s ≠ ""

/-- The state of a `Value` descriptor (class `Value` in
`configurations/values.py`).  The field `environ_pfx` models the attribute
`environ_prefix` (renamed here for technical reasons); a `None` prefix and
an empty prefix behave identically in the source (only truthiness of the
prefix is ever consulted), so both are modelled by `""`.  `cached` models
the `_value` attribute (absent until `setup` stores into it via the `value`
setter); `α` is the type of the descriptor's resolved values. -/
structure Value (α : Type) where
  default : α
  environ : Bool
  environ_pfx : String
  environ_name : Option String
  environ_required : Bool
  destination_name : Option String := none
  cached : Option α := none
deriving Repr, DecidableEq

/-- Python `str.upper()` (ASCII part; computable in the kernel, unlike
`String.toUpper`). -/
def pyUpper (s : String) : String :=
  ⟨s.data.map Char.toUpper⟩

/-- `Value.__init__` normalization of the `environ_prefix` argument: a
trailing underscore is stripped from a truthy prefix
(`environ_prefix.endswith('_')` / `environ_prefix[:-1]`). -/
def normalizePfx (p : String) : String :=
  if p ≠ "" ∧ p.data.getLast? = some '_' then ⟨p.data.dropLast⟩ else p

/-- `Value.__init__` (lines 60–75 of `values.py`): stores the constructor
arguments, with the prefix normalized and `destination_name` initialized to
`None`.  (The `default` unwrapping of a `Value`-wrapped default and the help
texts are not modelled; they play no role in the claims.) -/
def Value.init (α : Type) (default : α) (environ : Bool) (environ_name : Option String)
    (environ_pfx : String) (environ_required : Bool) : Value α :=
  { default := default
    environ := environ
    environ_pfx := normalizePfx environ_pfx
    environ_name := environ_name
    environ_required := environ_required
    destination_name := none
    cached := none }

/-- Prepend the environment prefix exactly as `full_environ_name` does:
`'{0}_{1}'.format(prefix, name)` when the prefix is truthy, the bare name
otherwise. -/
def applyPfx (pfx n : String) : String :=
  if pfx = "" then n else pfx ++ "_" ++ n

/-- The environment name choice of `full_environ_name`: the explicit
`environ_name` when given, otherwise the uppercased destination name. -/
def envNameChoice (environ_name : Option String) (dest : String) : String :=
  match environ_name with
  | some n => n
  | none => pyUpper dest

/-- `Value.full_environ_name` (lines 92–104 of `values.py`), given the
destination name (the property reads `self.destination_name`; accessing it
while it is still `None` would be a Python `AttributeError`, hence the
`Option` result of `Value.full_environ_name` below). -/
def full_environ_name_at (α : Type) (v : Value α) (dest : String) : String :=
  applyPfx v.environ_pfx (envNameChoice v.environ_name dest)

/-- `Value.full_environ_name` as a property of the descriptor state: defined
whenever `environ_name` is explicit or `destination_name` has been set. -/
def Value.full_environ_name (α : Type) (v : Value α) : Option String :=
  match v.environ_name with
  | some n => some (applyPfx v.environ_pfx n)
  | none => v.destination_name.map (fun d => applyPfx v.environ_pfx (pyUpper d))

/-- `Value.setup` (lines 106–123 of `values.py`), parameterized by the
variant's `to_python` conversion hook `tp`.  Sets `destination_name`, then:
if `environ` and the full environment name is present in the environment,
converts the raw string; if absent and `environ_required`, raises
`ValueRetrievalError`; otherwise falls back to `default`.  The result is
stored through the `value` setter (the `cached` field) and also returned. -/
def Value.setup (α : Type) (tp : String → Except Err α) (v : Value α) (env : Env)
    (name : String) : Except Err (Value α × α) :=
  let v1 : Value α := { v with destination_name := some name }
  if v1.environ then
    match env (full_environ_name_at α v1 name) with
    | some raw =>
      match tp raw with
      | .ok x => .ok ({ v1 with cached := some x }, x)
      | .error e => .error e
    | none =>
      if v1.environ_required then .error .retrievalError
      else .ok ({ v1 with cached := some v1.default }, v1.default)
  else .ok ({ v1 with cached := some v1.default }, v1.default)

/-- The `Value.value` property getter (lines 32–39 of `values.py`): returns
the cached value when present; otherwise, when `environ_name` is set, first
runs `setup(self.environ_name)` (whose result is read back from the cache);
otherwise returns `default` without touching the environment. -/
def Value.get (α : Type) (tp : String → Except Err α) (v : Value α) (env : Env) :
    Except Err (Value α × α) :=
  match v.cached with
  | some x => .ok (v, x)
  | none =>
    match v.environ_name with
    | some en =>
      match Value.setup α tp v env en with
      | .error e => .error e
      | .ok (v1, _) =>
        match v1.cached with
        | some x => .ok (v1, x)
        | none => .ok (v1, v1.default)
    | none => .ok (v, v.default)

/-! ## BooleanValue -/

/-- Python `str.strip()` whitespace (ASCII part): space, tab, newline,
carriage return, vertical tab, form feed. -/
def pyIsSpace (c : Char) : Bool :=
  c = ' ' ∨ c = '\t' ∨ c = '\n' ∨ c = '\r' ∨ c = '\x0b' ∨ c = '\x0c'

/-- Python `str.strip()`: drop leading and trailing whitespace. -/
def pyStrip (s : String) : String :=
  ⟨((s.data.dropWhile pyIsSpace).reverse.dropWhile pyIsSpace).reverse⟩

/-- Python `str.lower()` (ASCII part, which is all the boolean tables use). -/
def pyLower (s : String) : String :=
  ⟨s.data.map Char.toLower⟩

/-- `BooleanValue.true_values` (line 141 of `values.py`). -/
def true_values : List String := ["yes", "y", "true", "1"]

/-- `BooleanValue.false_values` (line 142 of `values.py`). -/
def false_values : List String := ["no", "n", "false", "0", ""]

/-- `BooleanValue.to_python` (lines 150–157 of `values.py`): strip and
lowercase the raw string, return `True`/`False` on a table match, raise
`ValueProcessingError(self, value)` otherwise. -/
def BooleanValue.to_python (value : String) : Except Err Bool :=
  let normalized_value := pyLower (pyStrip value)
  if normalized_value ∈ true_values then .ok true
  else if normalized_value ∈ false_values then .ok false
  else .error (.processingError value none)

/-! ## SecretValue -/

/-- `SecretValue.__init__` (lines 422–428 of `values.py`): forces
`environ=True` and `environ_required=True` before the base constructor,
then rejects a non-`None` default with Django's `ImproperlyConfigured`
(a `configurationError` in the spec's taxonomy).  Resolved secret values
are strings, so the value type is `Option String` (with `none` for
Python's `None` default). -/
def SecretValue.init (default : Option String) (environ_name : Option String)
    (environ_pfx : String) : Except Err (Value (Option String)) :=
  let v := Value.init (Option String) default true environ_name environ_pfx true
  if v.default ≠ none then
    .error (.configurationError
      "Secret values are only allowed to be set as environment variables")
  else .ok v

/-- `SecretValue.setup` (lines 430–434 of `values.py`): run the base setup
(the inherited `to_python` is the identity), then reject a falsy resolved
value (`None` or the empty string) with `ValueRetrievalError`. -/
def SecretValue.setup (v : Value (Option String)) (env : Env) (name : String) :
    Except Err (Value (Option String) × Option String) :=
  match Value.setup (Option String) (fun s => .ok (some s)) v env name with
  | .error e => .error e
  | .ok (v1, value) =>
    if pyTruthy value then .ok (v1, value) else .error .retrievalError

/-! ## DictValue and a model of `ast.literal_eval` -/

/-- Python literal values, as produced by `ast.literal_eval`. -/
inductive PyLit where
  | int (n : Int)
  | str (s : String)
  | bool (b : Bool)
  | noneV
  | list (xs : List PyLit)
  | tuple (xs : List PyLit)
  | dict (xs : List (PyLit × PyLit))

/-- The two failure modes of `ast.literal_eval`: `SyntaxError` when the text
does not parse as an expression, `ValueError` ("malformed node") when it
parses but contains a non-literal node. -/
inductive LitErr where
  | syntaxError : LitErr
  | valueError : LitErr
deriving DecidableEq, Repr

/-- Drop leading whitespace from a character list. -/
def skipWs : List Char → List Char
  | c :: cs => if pyIsSpace c then skipWs cs else c :: cs
  | [] => []

/-- Split off a leading run of decimal digits. -/
def takeDigits (cs : List Char) : List Char × List Char :=
  (cs.takeWhile Char.isDigit, cs.dropWhile Char.isDigit)

/-- Natural value of a digit run. -/
def digitsToNat (ds : List Char) : Nat :=
  ds.foldl (fun a c => a * 10 + (c.toNat - 48)) 0

/-- Split off a leading identifier (letters, digits, underscores). -/
def takeIdent (cs : List Char) : List Char × List Char :=
  (cs.takeWhile (fun c => c.isAlphanum ∨ c = '_'),
   cs.dropWhile (fun c => c.isAlphanum ∨ c = '_'))

/-- Scan up to the closing quote `q`; `none` when the string is
unterminated. -/
def takeUntilQuote (q : Char) : List Char → Option (List Char × List Char)
  | [] => Option.none
  | c :: cs =>
    if c = q then some ([], cs)
    else (takeUntilQuote q cs).map (fun p => (c :: p.1, p.2))

/-- Parse a signed integer literal. -/
def parseNum (cs : List Char) : Except LitErr (PyLit × List Char) :=
  match cs with
  | '-' :: rest =>
    let (ds, rest') := takeDigits rest
    if ds = [] then .error .syntaxError
    else .ok (.int (-(digitsToNat ds : Int)), rest')
  | '+' :: rest =>
    let (ds, rest') := takeDigits rest
    if ds = [] then .error .syntaxError
    else .ok (.int (digitsToNat ds : Int), rest')
  | _ =>
    let (ds, rest') := takeDigits cs
    if ds = [] then .error .syntaxError
    else .ok (.int (digitsToNat ds : Int), rest')

mutual

/-- Recursive-descent parser for a subset of Python literal expressions
(integers, quoted strings without escapes, `True`/`False`/`None`, lists,
tuples and dicts); a bare identifier parses as a `Name` node and therefore
raises `ValueError`, everything else `SyntaxError`.  `fuel` bounds the
recursion depth. -/
def parseVal (fuel : Nat) (cs : List Char) : Except LitErr (PyLit × List Char) :=
  match fuel with
  | 0 => .error .syntaxError
  | fuel' + 1 =>
    match skipWs cs with
    | [] => .error .syntaxError
    | c :: rest =>
      if c = '\'' ∨ c = '"' then
        match takeUntilQuote c rest with
        | some (body, rest') => .ok (.str ⟨body⟩, rest')
        | Option.none => .error .syntaxError
      else if c.isDigit ∨ c = '-' ∨ c = '+' then parseNum (c :: rest)
      else if c = '[' then
        match parseElems fuel' ']' rest with
        | .ok (xs, rest') => .ok (.list xs, rest')
        | .error e => .error e
      else if c = '(' then
        match parseElems fuel' ')' rest with
        | .ok (xs, rest') => .ok (.tuple xs, rest')
        | .error e => .error e
      else if c = '\x7b' then
        match parseItems fuel' rest with
        | .ok (xs, rest') => .ok (.dict xs, rest')
        | .error e => .error e
      else if c.isAlpha ∨ c = '_' then
        let (id, rest') := takeIdent (c :: rest)
        if (⟨id⟩ : String) = "True" then .ok (.bool true, rest')
        else if (⟨id⟩ : String) = "False" then .ok (.bool false, rest')
        else if (⟨id⟩ : String) = "None" then .ok (.noneV, rest')
        else .error .valueError
      else .error .syntaxError

/-- Parse comma-separated literal elements up to the closing bracket
`close` (trailing comma permitted, as in Python). -/
def parseElems (fuel : Nat) (close : Char) (cs : List Char) :
    Except LitErr (List PyLit × List Char) :=
  match fuel with
  | 0 => .error .syntaxError
  | fuel' + 1 =>
    match skipWs cs with
    | [] => .error .syntaxError
    | c :: rest =>
      if c = close then .ok ([], rest)
      else
        match parseVal fuel' (c :: rest) with
        | .error e => .error e
        | .ok (x, cs1) =>
          match skipWs cs1 with
          | [] => .error .syntaxError
          | c2 :: rest2 =>
            if c2 = close then .ok ([x], rest2)
            else if c2 = ',' then
              match parseElems fuel' close rest2 with
              | .ok (xs, rest3) => .ok (x :: xs, rest3)
              | .error e => .error e
            else .error .syntaxError

/-- Parse comma-separated `key : value` items up to the closing brace
(trailing comma permitted). -/
def parseItems (fuel : Nat) (cs : List Char) :
    Except LitErr (List (PyLit × PyLit) × List Char) :=
  match fuel with
  | 0 => .error .syntaxError
  | fuel' + 1 =>
    match skipWs cs with
    | [] => .error .syntaxError
    | c :: rest =>
      if c = '\x7d' then .ok ([], rest)
      else
        match parseVal fuel' (c :: rest) with
        | .error e => .error e
        | .ok (k, cs1) =>
          match skipWs cs1 with
          | ':' :: cs2 =>
            match parseVal fuel' cs2 with
            | .error e => .error e
            | .ok (v, cs3) =>
              match skipWs cs3 with
              | [] => .error .syntaxError
              | c2 :: rest2 =>
                if c2 = '\x7d' then .ok ([(k, v)], rest2)
                else if c2 = ',' then
                  match parseItems fuel' rest2 with
                  | .ok (xs, rest3) => .ok ((k, v) :: xs, rest3)
                  | .error e => .error e
                else .error .syntaxError
          | _ => .error .syntaxError

end

/-- Model of `ast.literal_eval` on the subset above: parse one literal
expression and require only whitespace afterwards. -/
def literalEval (s : String) : Except LitErr PyLit :=
  match parseVal (2 * s.length + 2) s.data with
  | .error e => .error e
  | .ok (v, rest) => if skipWs rest = [] then .ok v else .error .syntaxError

/-- `DictValue.to_python` (lines 340–350 of `values.py`): the base
`to_python` is the identity; an empty (falsy) string short-circuits to the
empty dict; then `ast.literal_eval` is attempted, with only `ValueError`
caught and turned into `ValueProcessingError` — a `SyntaxError` escapes
uncaught; a parsed non-dict result raises `ValueProcessingError`. -/
def DictValue.to_python (value : String) : Except Err (List (PyLit × PyLit)) :=
  if value = "" then .ok []
  else
    match literalEval value with
    | .error .valueError => .error (.processingError value Option.none)
    | .error .syntaxError => .error (.uncaught "SyntaxError")
    | .ok (.dict xs) => .ok xs
    | .ok _ => .error (.processingError value Option.none)

/-! ## Sequence values -/

/-- The `sequence_type` of a sequence descriptor (`list` for `ListValue` and
`SingleNestedListValue`, `tuple` for `TupleValue` and
`SingleNestedTupleValue`). -/
inductive SeqTy where
  | list : SeqTy
  | tuple : SeqTy
deriving DecidableEq, Repr

/-- Apply the sequence type to a list of elements
(`self.sequence_type(...)`). -/
def SeqTy.wrap : SeqTy → List PyLit → PyLit
  | .list, xs => .list xs
  | .tuple, xs => .tuple xs

/-- `isinstance(x, self.sequence_type)`. -/
def SeqTy.matches : SeqTy → PyLit → Bool
  | .list, .list _ => true
  | .tuple, .tuple _ => true
  | _, _ => false

/-- A per-element converter; an error models a raised `TypeError` or
`ValueError`. -/
def Conv : Type := PyLit → Except Unit PyLit

/-- Python iteration over a value (`for value in sequence`): lists and
tuples yield their elements, strings their characters; anything else is a
`TypeError`. -/
def pyIter : PyLit → Except Unit (List PyLit)
  | .list xs => .ok xs
  | .tuple xs => .ok xs
  | .str s => .ok (s.data.map (fun c => .str ⟨[c]⟩))
  | _ => .error ()

/-- The raw-string payload `self.separator.join(sequence)` used in
`SequenceValue._convert`'s error (approximated: non-string elements, on
which Python's `join` would itself raise, contribute the empty string; the
payload is not load-bearing for any claim). -/
def joinRaw (sep : String) (xs : List PyLit) : String :=
  String.intercalate sep (xs.map (fun x => match x with | .str s => s | _ => ""))

/-- The conversion loop of `SequenceValue._convert` (lines 243–250 of
`values.py`): apply the converter to each element, translating a
`TypeError`/`ValueError` into `ValueProcessingError` carrying the joined
sequence. -/
def convertLoop (conv : Conv) (errRaw : String) : List PyLit → Except Err (List PyLit)
  | [] => .ok []
  | x :: xs =>
    match conv x with
    | .error _ => .error (.processingError errRaw Option.none)
    | .ok y =>
      match convertLoop conv errRaw xs with
      | .ok ys => .ok (y :: ys)
      | .error e => .error e

/-- `SequenceValue._convert`: convert every element and wrap the result in
the sequence type. -/
def SequenceValue._convert (st : SeqTy) (conv : Conv) (sep : String)
    (sequence : List PyLit) : Except Err PyLit :=
  match convertLoop conv (joinRaw sep sequence) sequence with
  | .ok ys => .ok (st.wrap ys)
  | .error e => .error e

/-- The comprehension of `SingleNestedSequenceValue._convert`: convert each
group with the single-level `_convert` (iterating the group first; a
non-iterable group is an uncaught `TypeError`). -/
def nestedLoop (st : SeqTy) (conv : Conv) (sep : String) :
    List PyLit → Except Err (List PyLit)
  | [] => .ok []
  | i :: is =>
    match pyIter i with
    | .error _ => .error (.uncaught "TypeError")
    | .ok elems =>
      match SequenceValue._convert st conv sep elems with
      | .error e => .error e
      | .ok y =>
        match nestedLoop st conv sep is with
        | .ok ys => .ok (y :: ys)
        | .error e => .error e

/-- `SingleNestedSequenceValue._convert` (lines 279–286 of `values.py`):
when the first item is itself of the sequence type, convert each group and
wrap; otherwise treat the items as a bare sequence. -/
def SingleNestedSequenceValue._convert (st : SeqTy) (conv : Conv) (sep : String)
    (items : List PyLit) : Except Err PyLit :=
  match items.head? with
  | some h =>
    if st.matches h then
      match nestedLoop st conv sep items with
      | .ok seqs => .ok (st.wrap seqs)
      | .error e => .error e
    else SequenceValue._convert st conv sep items
  | Option.none => SequenceValue._convert st conv sep items

/-- The default normalization of `SequenceValue.__init__` (lines 234–241 of
`values.py`): a `None` default becomes the empty sequence, any other
default is poured into the sequence type; when a converter is configured
the (variant-dispatched) `_convert` is applied to it.  `convertFn` is the
variant's `_convert` with the configuration already applied; the iterable
default is modelled by its element list. -/
def SequenceValue.initDefault (st : SeqTy)
    (convertFn : List PyLit → Except Err PyLit) (conv : Option Conv)
    (default : Option (List PyLit)) : Except Err PyLit :=
  let d := default.getD []
  match conv with
  | Option.none => .ok (st.wrap d)
  | some _ => convertFn d

/-- `SequenceValue.__init__` for the flat variants (`ListValue`,
`TupleValue`): the stored, normalized default. -/
def SequenceValue.init (st : SeqTy) (sep : String) (conv : Option Conv)
    (default : Option (List PyLit)) : Except Err PyLit :=
  SequenceValue.initDefault st
    (fun d => SequenceValue._convert st (conv.getD (fun x => .ok x)) sep d)
    conv default

/-- `SingleNestedSequenceValue.__init__` (lines 275–277 of `values.py`):
pops `seq_separator` and defers to the base constructor, whose `_convert`
dispatch lands on the nested `_convert`. -/
def SingleNestedSequenceValue.init (st : SeqTy) (sep : String) (conv : Option Conv)
    (default : Option (List PyLit)) : Except Err PyLit :=
  SequenceValue.initDefault st
    (fun d => SingleNestedSequenceValue._convert st (conv.getD (fun x => .ok x)) sep d)
    conv default

/-- Worker for `pySplit`: scan the characters, emitting a piece at every
occurrence of the (non-empty) separator.  `fuel` bounds the scan and is
adequate at the character count. -/
def pySplitAux (sep : List Char) : Nat → List Char → List Char → List (List Char)
  | _, [], acc => [acc.reverse]
  | 0, cs, acc => [acc.reverse ++ cs]
  | fuel + 1, c :: cs, acc =>
    if sep.isPrefixOf (c :: cs) then
      acc.reverse :: pySplitAux sep fuel (List.drop (sep.length - 1) cs) []
    else pySplitAux sep fuel cs (c :: acc)

/-- Python `str.split(sep)` for a non-empty separator. -/
def pySplit (sep : String) (s : String) : List String :=
  if sep = "" then [s]
  else (pySplitAux sep.data s.data.length s.data []).map (fun l => ⟨l⟩)

/-- `SequenceValue.to_python` (lines 252–258 of `values.py`): strip, split
on the separator, strip the items, drop empty items, apply the converter
when configured, and wrap in the sequence type. -/
def SequenceValue.to_python (st : SeqTy) (sep : String) (conv : Option Conv)
    (value : String) : Except Err PyLit :=
  let split_value := (pySplit sep (pyStrip value)).map pyStrip
  let value_list := split_value.filter (fun v => v ≠ "")
  match conv with
  | Option.none => .ok (st.wrap (value_list.map PyLit.str))
  | some c => SequenceValue._convert st c sep (value_list.map PyLit.str)

/-! ## PathValue and `setup_value` -/

/-- Model of `os.path.expanduser` for the common forms: a leading `~` is
replaced by the home directory (the `~user` form and platform quirks are
outside the subset). -/
def expanduser (home : String) (path : String) : String :=
  if path = "~" then home
  else
    match path.data with
    | '~' :: '/' :: rest => home ++ ⟨'/' :: rest⟩
    | _ => path

/-- Model of `os.path.abspath`: a relative path is joined to the current
working directory (path normalization is outside the subset; it does not
bear on any claim). -/
def abspath (cwd : String) (path : String) : String :=
  match path.data with
  | '/' :: _ => path
  | _ => cwd ++ "/" ++ path

/-- `PathValue.setup` (lines 412–417 of `values.py`): run the base setup
(the inherited `to_python` is the identity), expand `~`, optionally require
existence (`ValueProcessingError` otherwise) and return the absolute path.
`fsys` models `os.path.exists`; a `None` value reaching `expanduser` would
be a Python `TypeError`.  Note the returned absolute path is **not** stored
back into the cache: the cache keeps what the base setup stored. -/
def PathValue.setup (fsys : String → Bool) (home cwd : String) (check_exists : Bool)
    (v : Value (Option String)) (env : Env) (name : String) :
    Except Err (Value (Option String) × String) :=
  match Value.setup (Option String) (fun s => .ok (some s)) v env name with
  | .error e => .error e
  | .ok (v1, value) =>
    match value with
    | Option.none => .error (.uncaught "TypeError")
    | some s =>
      let s1 := expanduser home s
      if check_exists ∧ ¬ fsys s1 then
        .error (.processingError s1 (some ("Path " ++ s1 ++ " does not exist")))
      else .ok (v1, abspath cwd s1)

/-- A target namespace holding attribute values of type `π`, with
`setattr`-style update. -/
def NSpace (π : Type) : Type := String → Option π

/-- `setattr(target, name, x)`. -/
def NSpace.set (π : Type) (ns : NSpace π) (name : String) (x : π) : NSpace π :=
  fun n => if n = name then some x else ns n

/-- `setup_value` (lines 14–21 of `values.py`), parameterized by the
variant's `setup` method `setupFn` (dynamic dispatch) and its `multiple`
flag with `items` extraction.  `actual_value = value.setup(name)` runs
first; then `setattr(target, name, value.value)` writes the **property
read** of the descriptor (its cached value) — not `actual_value`; finally,
for `multiple` descriptors, the items of `actual_value` are merged in. -/
def setup_value (π ρ : Type) (tp : String → Except Err π)
    (setupFn : Value π → Env → String → Except Err (Value π × ρ))
    (multiple : Bool) (items : ρ → List (String × π))
    (target : NSpace π) (name : String) (v : Value π) (env : Env) :
    Except Err (NSpace π × Value π) :=
  match setupFn v env name with
  | .error e => .error e
  | .ok (v1, actual_value) =>
    match Value.get π tp v1 env with
    | .error e => .error e
    | .ok (v2, x) =>
      let t1 := NSpace.set π target name x
      if multiple then
        .ok ((items actual_value).foldl (fun t p => NSpace.set π t p.1 p.2) t1, v2)
      else .ok (t1, v2)

/-! ## The injection wrapper of `importer.py` -/

/-- A Python exception as the injection wrapper sees it: either an
arbitrary exception (by a describing tag) or a `ConfigurationError`
carrying a message and, when chained with `raise ... from exc`, its cause
(the chaining models `__cause__`, through which the original traceback
remains inspectable). -/
inductive Exc where
  | exc (tag : String) : Exc
  | configurationError (msg : String) (cause : Option Exc) : Exc

/-- A value in the injected module namespace. -/
inductive PyObj where
  | strO (s : String)
  | other (tag : String)
deriving DecidableEq, Repr

/-- The outcome of calling a callable attribute in the injection loop
(line 174 of `importer.py`): a plain value, or a `Value` instance that must
go through `setup_value` — modelled by the resolution outcome it would
produce (the primary value written under the attribute name and, for
`multiple` descriptors, the extra named outputs). -/
inductive CallRes where
  | plain (v : PyObj) : CallRes
  | valueDesc (inject : Except Exc (PyObj × List (String × PyObj))) : CallRes

/-- An enumerated uppercase attribute of the schema instance
(lines 171–180 of `importer.py`): a plain value, or a callable with its
`pristine` flag, the callable object itself (assigned untouched when
pristine) and its call outcome. -/
inductive Attr where
  | plain (v : PyObj) : Attr
  | thunk (pristine : Bool) (self : PyObj) (call : Except Exc CallRes) : Attr

/-- The four hook/step outcomes of the injection sequence for one schema:
`cls.pre_setup()`, `cls.setup()`, instantiation plus uppercase-attribute
enumeration (`uppercase_attributes(obj).items()`), and `cls.post_setup()`. -/
structure SchemaOps where
  pre_setup : Except Exc Unit
  cls_setup : Except Exc Unit
  make_instance : Except Exc (List (String × Attr))
  post_setup : Except Exc Unit

/-- One iteration of the attribute loop (lines 172–180 of `importer.py`). -/
def attrWrite (m : NSpace PyObj) (name : String) : Attr → Except Exc (NSpace PyObj)
  | .plain v => .ok (NSpace.set PyObj m name v)
  | .thunk pristine self call =>
    if pristine then .ok (NSpace.set PyObj m name self)
    else
      match call with
      | .error e => .error e
      | .ok (.plain v) => .ok (NSpace.set PyObj m name v)
      | .ok (.valueDesc inj) =>
        match inj with
        | .error e => .error e
        | .ok (primary, extras) =>
          .ok (extras.foldl (fun t p => NSpace.set PyObj t p.1 p.2)
                (NSpace.set PyObj m name primary))

/-- The attribute loop. -/
def injectAttrs (m : NSpace PyObj) : List (String × Attr) → Except Exc (NSpace PyObj)
  | [] => .ok m
  | (name, a) :: rest =>
    match attrWrite m name a with
    | .error e => .error e
    | .ok m1 => injectAttrs m1 rest

/-- The body of the `try` block of `ConfigurationLoader.exec_module`
(lines 167–184 of `importer.py`): `pre_setup`, `setup`, instantiation and
attribute enumeration, the attribute loop, the `CONFIGURATION` provenance
attribute, `post_setup`. -/
def injectBody (mod_name class_name : String) (ops : SchemaOps) (m : NSpace PyObj) :
    Except Exc (NSpace PyObj) :=
  match ops.pre_setup with
  | .error e => .error e
  | .ok _ =>
    match ops.cls_setup with
    | .error e => .error e
    | .ok _ =>
      match ops.make_instance with
      | .error e => .error e
      | .ok attributes =>
        match injectAttrs m attributes with
        | .error e => .error e
        | .ok m1 =>
          let m2 := NSpace.set PyObj m1 "CONFIGURATION"
            (.strO (mod_name ++ "." ++ class_name))
          match ops.post_setup with
          | .error e => .error e
          | .ok _ => .ok m2

/-- Modelled from the spec: `reraise` lives in `configurations/utils.py`,
which is not among the sources.  Per the spec (§4.5 step 7, §7
Propagation), the caught exception is re-raised as a `ConfigurationError`
annotated with the given message and chained to the original exception as
its cause. -/
def reraise (err : Exc) (msg : String) : Exc :=
  Exc.configurationError msg (some err)

/-- `ConfigurationLoader.exec_module` (lines 150–187 of `importer.py`),
after the module execution and class lookup: run the injection body and
wrap any exception via `reraise` with the message
`Couldn't setup configuration '{cls_path}'` where
`cls_path = f'{mod.__name__}.{class_name}'`. -/
def exec_module (mod_name class_name : String) (ops : SchemaOps) (m : NSpace PyObj) :
    Except Exc (NSpace PyObj) :=
  let cls_path := mod_name ++ "." ++ class_name
  match injectBody mod_name class_name ops m with
  | .ok m2 => .ok m2
  | .error err =>
    .error (reraise err ("Couldn\x27t setup configuration \x27" ++ cls_path ++ "\x27"))

/-! ## Helper lemmas -/

/-- Unfolding of `Value.setup` with the intermediate state inlined. -/
lemma Value.setup_eq (α : Type) (tp : String → Except Err α) (v : Value α) (env : Env)
    (name : String) :
    Value.setup α tp v env name =
      if v.environ = true then
        match env (full_environ_name_at α v name) with
        | some raw =>
          match tp raw with
          | .ok x => .ok ({ v with destination_name := some name, cached := some x }, x)
          | .error e => .error e
        | Option.none =>
          if v.environ_required = true then .error .retrievalError
          else .ok ({ v with destination_name := some name, cached := some v.default },
                    v.default)
      else .ok ({ v with destination_name := some name, cached := some v.default },
                v.default) := by
  cases v
  rfl

/-! ## Claim C1 -/

/-- C1: with `environ` (readFromEnvironment) enabled, `Value.setup` raises
`ValueRetrievalError` — not a `ValueProcessingError` — when the environment
variable named by the full environment name is absent and `environ_required`
holds; when `environ_required` does not hold, absence falls back to the
static default; presence of the variable with any raw string (including the
empty string) yields the parsed value. -/
theorem C1_required_semantics (α : Type) (tp : String → Except Err α) (v : Value α)
    (env : Env) (name : String) (henv : v.environ = true) :
    (env (full_environ_name_at α v name) = Option.none →
      (v.environ_required = true →
        Value.setup α tp v env name = .error .retrievalError) ∧
      (v.environ_required = false →
        Value.setup α tp v env name =
          .ok ({ v with destination_name := some name, cached := some v.default },
               v.default))) ∧
    (∀ raw x, env (full_environ_name_at α v name) = some raw → tp raw = .ok x →
      Value.setup α tp v env name =
        .ok ({ v with destination_name := some name, cached := some x }, x)) := by
  constructor
  · intro habs
    constructor
    · intro hreq
      rw [Value.setup_eq]
      simp [henv, habs, hreq]
    · intro hreq
      rw [Value.setup_eq]
      simp [henv, habs, hreq]
  · intro raw x hraw htp
    rw [Value.setup_eq]
    simp [henv, hraw, htp]

/-- Witness for C1 at concrete inputs: a required descriptor over an empty
environment raises the retrieval error; an optional descriptor finding the
empty string parses it. -/
theorem C1_required_semantics_witness :
    Value.setup (Option String) (fun s => .ok (some s))
      (Value.init (Option String) Option.none true Option.none "DJANGO" true)
      (fun _ => Option.none) "DEBUG" = .error .retrievalError ∧
    Value.setup (Option String) (fun s => .ok (some s))
      (Value.init (Option String) Option.none true Option.none "DJANGO" false)
      (fun _ => some "") "DEBUG" =
      .ok ({ Value.init (Option String) Option.none true Option.none "DJANGO" false with
              destination_name := some "DEBUG", cached := some (some "") }, some "") :=
  ⟨((C1_required_semantics (Option String) (fun s => .ok (some s))
      (Value.init (Option String) Option.none true Option.none "DJANGO" true)
      (fun _ => Option.none) "DEBUG" rfl).1 rfl).1 rfl,
   (C1_required_semantics (Option String) (fun s => .ok (some s))
      (Value.init (Option String) Option.none true Option.none "DJANGO" false)
      (fun _ => some "") "DEBUG" rfl).2 "" (some "") rfl rfl⟩

/-! ## Claim C5 -/

/-- The full environment name exactly as claim C5 words it: the prefix, an
underscore, and the explicit-or-derived name, uppercased (prefix and its
separator omitted when the prefix is empty); the derived name is the
uppercased destination name. -/
def full_environ_name_claimed (α : Type) (v : Value α) : Option String :=
  match v.environ_name with
  | some n => some (pyUpper (applyPfx v.environ_pfx n))
  | Option.none =>
    v.destination_name.map (fun d => pyUpper (applyPfx v.environ_pfx (pyUpper d)))

/-- Counterexample to C5 as stated: an explicit lowercase environment name is
used verbatim by the code, not uppercased. -/
theorem C5_full_environ_name_counterexample :
    Value.full_environ_name (Option String)
        (Value.init (Option String) Option.none true (some "foo") "DJANGO" false) =
      some "DJANGO_foo" ∧
    full_environ_name_claimed (Option String)
        (Value.init (Option String) Option.none true (some "foo") "DJANGO" false) =
      some "DJANGO_FOO" ∧
    (some "DJANGO_foo" : Option String) ≠ some "DJANGO_FOO" :=
  ⟨rfl, rfl, by decide⟩

/-- The full environment name as claim C5 must be amended: the explicit
environment name (when given) is used verbatim; only the derived name — the
destination name — is uppercased; the prefix and its underscore separator
are prepended unless the prefix is empty. -/
def full_environ_name_amended (α : Type) (v : Value α) : Option String :=
  match v.environ_name, v.destination_name with
  | some n, _ =>
    some (if v.environ_pfx = "" then n else v.environ_pfx ++ "_" ++ n)
  | Option.none, some d =>
    some (if v.environ_pfx = "" then pyUpper d else v.environ_pfx ++ "_" ++ pyUpper d)
  | Option.none, Option.none => Option.none

/-- C5 (amended): for every descriptor, the code's full environment name
agrees with the amended rule — explicit name verbatim, derived name the
uppercased destination name, prefix plus underscore prepended unless the
prefix is empty. -/
theorem C5_full_environ_name (α : Type) (v : Value α) :
    Value.full_environ_name α v = full_environ_name_amended α v := by
  unfold Value.full_environ_name full_environ_name_amended applyPfx
  cases v.environ_name <;> cases h : v.destination_name <;> simp [h]

/-! ## Claim C6 -/

/-- Counterexample to C6 as stated: after a first resolution under `"A"`
(which leaves the shown state), a second resolution under `"B"` changes
`destination_name` to `"B"` — it is not immutable after first assignment. -/
theorem C6_destination_name_counterexample :
    Value.setup (Option String) (fun s => .ok (some s))
        (Value.init (Option String) Option.none true Option.none "DJANGO" false)
        (fun _ => some "1") "A" =
      .ok ({ default := Option.none, environ := true, environ_pfx := "DJANGO",
             environ_name := Option.none, environ_required := false,
             destination_name := some "A", cached := some (some "1") }, some "1") ∧
    Value.setup (Option String) (fun s => .ok (some s))
        { default := Option.none, environ := true, environ_pfx := "DJANGO",
          environ_name := Option.none, environ_required := false,
          destination_name := some "A", cached := some (some "1") }
        (fun _ => some "1") "B" =
      .ok ({ default := Option.none, environ := true, environ_pfx := "DJANGO",
             environ_name := Option.none, environ_required := false,
             destination_name := some "B", cached := some (some "1") }, some "1") ∧
    (some "B" : Option String) ≠ some "A" :=
  ⟨rfl, rfl, by decide⟩

/-- C6 (amended): `destination_name` is assigned on **every** resolution,
from the attribute name passed to `setup`; after a resolution it equals that
resolution's name, so a second resolution under a different name does change
it (it is not immutable). -/
theorem C6_destination_name (α : Type) (tp : String → Except Err α) (v : Value α)
    (env : Env) (name : String) (v1 : Value α) (x : α)
    (h : Value.setup α tp v env name = .ok (v1, x)) :
    v1.destination_name = some name := by
  rw [Value.setup_eq] at h
  by_cases he : v.environ = true
  · rw [if_pos he] at h
    cases henv : env (full_environ_name_at α v name) with
    | some raw =>
      cases htp : tp raw with
      | ok y =>
        simp only [henv, htp, Except.ok.injEq, Prod.mk.injEq] at h
        rw [← h.1]
      | error e =>
        simp only [henv, htp] at h
        exact (Except.noConfusion h)
    | none =>
      simp only [henv] at h
      by_cases hr : v.environ_required = true
      · rw [if_pos hr] at h
        exact (Except.noConfusion h)
      · rw [if_neg hr] at h
        simp only [Except.ok.injEq, Prod.mk.injEq] at h
        rw [← h.1]
  · rw [if_neg he] at h
    simp only [Except.ok.injEq, Prod.mk.injEq] at h
    rw [← h.1]

/-- Witness for C6 (amended) at a concrete resolution. -/
theorem C6_destination_name_witness :
    ({ default := (Option.none : Option String), environ := true,
       environ_pfx := "DJANGO", environ_name := Option.none,
       environ_required := false, destination_name := some "B",
       cached := some (some "1") } : Value (Option String)).destination_name =
      some "B" :=
  C6_destination_name (Option String) (fun s => .ok (some s))
    { default := Option.none, environ := true, environ_pfx := "DJANGO",
      environ_name := Option.none, environ_required := false,
      destination_name := some "A", cached := some (some "1") }
    (fun _ => some "1") "B" _ (some "1") rfl

/-! ## Claim C3 -/

/-- Claim-side predicate: after trimming, the raw string `s`
case-insensitively matches the table entry `t`. -/
def ciMatches (s t : String) : Prop :=
  pyLower (pyStrip s) = pyLower t

instance (s t : String) : Decidable (ciMatches s t) :=
  inferInstanceAs (Decidable (pyLower (pyStrip s) = pyLower t))

/-- Every entry of the true table is already lowercase. -/
lemma pyLower_mem_true_values (t : String) (h : t ∈ true_values) : pyLower t = t := by
  simp only [true_values, List.mem_cons, List.not_mem_nil, or_false] at h
  rcases h with rfl | rfl | rfl | rfl <;> rfl

/-- Every entry of the false table is already lowercase. -/
lemma pyLower_mem_false_values (t : String) (h : t ∈ false_values) : pyLower t = t := by
  simp only [false_values, List.mem_cons, List.not_mem_nil, or_false] at h
  rcases h with rfl | rfl | rfl | rfl | rfl <;> rfl

/-- The two tables are disjoint. -/
lemma true_false_values_disjoint (t : String) (h : t ∈ false_values) :
    t ∉ true_values := by
  simp only [false_values, List.mem_cons, List.not_mem_nil, or_false] at h
  rcases h with rfl | rfl | rfl | rfl | rfl <;> decide

/-- C3: `BooleanValue.to_python` maps every raw string that, after trimming,
case-insensitively matches an entry of `{yes, y, true, 1}` to `True`, every
raw string matching an entry of `{no, n, false, 0, ""}` to `False`, and
raises a `ValueProcessingError` for every other string. -/
theorem C3_boolean_coercion (value : String) :
    ((∃ t ∈ true_values, ciMatches value t) →
      BooleanValue.to_python value = .ok true) ∧
    ((∃ t ∈ false_values, ciMatches value t) →
      BooleanValue.to_python value = .ok false) ∧
    ((¬ ∃ t ∈ true_values, ciMatches value t) →
      (¬ ∃ t ∈ false_values, ciMatches value t) →
      BooleanValue.to_python value = .error (.processingError value Option.none)) := by
  refine ⟨?_, ?_, ?_⟩
  · rintro ⟨t, ht, hm⟩
    have h1 : pyLower (pyStrip value) = t :=
      (hm.trans (pyLower_mem_true_values t ht) : _)
    simp only [BooleanValue.to_python, h1]
    rw [if_pos ht]
  · rintro ⟨t, ht, hm⟩
    have h1 : pyLower (pyStrip value) = t :=
      (hm.trans (pyLower_mem_false_values t ht) : _)
    have h2 : t ∉ true_values := true_false_values_disjoint t ht
    simp only [BooleanValue.to_python, h1]
    rw [if_neg h2, if_pos ht]
  · intro hnt hnf
    have h1 : pyLower (pyStrip value) ∉ true_values := fun hmem =>
      hnt ⟨pyLower (pyStrip value), hmem,
        by rw [ciMatches, pyLower_mem_true_values _ hmem]⟩
    have h2 : pyLower (pyStrip value) ∉ false_values := fun hmem =>
      hnf ⟨pyLower (pyStrip value), hmem,
        by rw [ciMatches, pyLower_mem_false_values _ hmem]⟩
    simp only [BooleanValue.to_python]
    rw [if_neg h1, if_neg h2]

/-- Witness for C3 at the spec's test vectors: `"YES"`, `" 0 "`, `"maybe"`. -/
theorem C3_boolean_coercion_witness :
    BooleanValue.to_python "YES" = .ok true ∧
    BooleanValue.to_python " 0 " = .ok false ∧
    BooleanValue.to_python "maybe" = .error (.processingError "maybe" Option.none) :=
  ⟨(C3_boolean_coercion "YES").1 ⟨"yes", by decide, by decide⟩,
   (C3_boolean_coercion " 0 ").2.1 ⟨"0", by decide, by decide⟩,
   (C3_boolean_coercion "maybe").2.2 (by decide) (by decide)⟩

/-! ## Claim C4 -/

/-- C4: resolving a descriptor a second time under the same destination name
with an unchanged environment reproduces the same state and value; and once
a value is cached, reading the `value` property returns it unchanged,
independently of the environment — the environment lookup is performed at
most once unless `setup` is explicitly invoked again. -/
theorem C4_idempotent_resolution (α : Type) (tp : String → Except Err α)
    (v : Value α) (env : Env) (name : String) :
    (∀ v1 x, Value.setup α tp v env name = .ok (v1, x) →
      Value.setup α tp v1 env name = .ok (v1, x)) ∧
    (∀ x, v.cached = some x → ∀ env2 : Env, Value.get α tp v env2 = .ok (v, x)) := by
  constructor
  · intro v1 x h
    rw [Value.setup_eq] at h
    rw [Value.setup_eq]
    by_cases he : v.environ = true
    · rw [if_pos he] at h
      cases henv : env (full_environ_name_at α v name) with
      | some raw =>
        cases htp : tp raw with
        | ok y =>
          simp only [henv, htp, Except.ok.injEq, Prod.mk.injEq] at h
          obtain ⟨h1, h2⟩ := h
          subst h2
          rw [← h1]
          simp only [full_environ_name_at] at henv
          simp [full_environ_name_at, he, henv, htp]
        | error e =>
          simp only [henv, htp] at h
          exact (Except.noConfusion h)
      | none =>
        simp only [henv] at h
        by_cases hr : v.environ_required = true
        · rw [if_pos hr] at h
          exact (Except.noConfusion h)
        · rw [if_neg hr] at h
          simp only [Except.ok.injEq, Prod.mk.injEq] at h
          obtain ⟨h1, h2⟩ := h
          subst h2
          rw [← h1]
          simp only [full_environ_name_at] at henv
          simp [full_environ_name_at, he, henv, hr]
    · rw [if_neg he] at h
      simp only [Except.ok.injEq, Prod.mk.injEq] at h
      obtain ⟨h1, h2⟩ := h
      subst h2
      rw [← h1]
      simp [he]
  · intro x hx env2
    simp [Value.get, hx]

/-- Witness for C4 at a concrete resolved descriptor: re-running `setup`
reproduces the state and value, and the cached property read ignores the
environment. -/
theorem C4_idempotent_resolution_witness :
    Value.setup (Option String) (fun s => .ok (some s))
      { default := Option.none, environ := true, environ_pfx := "DJANGO",
        environ_name := Option.none, environ_required := false,
        destination_name := some "NAME", cached := some (some "x") }
      (fun _ => some "x") "NAME" =
      .ok ({ default := Option.none, environ := true, environ_pfx := "DJANGO",
             environ_name := Option.none, environ_required := false,
             destination_name := some "NAME", cached := some (some "x") },
           some "x") ∧
    Value.get (Option String) (fun s => .ok (some s))
      { default := Option.none, environ := true, environ_pfx := "DJANGO",
        environ_name := Option.none, environ_required := false,
        destination_name := some "NAME", cached := some (some "x") }
      (fun _ => Option.none) =
      .ok ({ default := Option.none, environ := true, environ_pfx := "DJANGO",
             environ_name := Option.none, environ_required := false,
             destination_name := some "NAME", cached := some (some "x") },
           some "x") :=
  ⟨(C4_idempotent_resolution (Option String) (fun s => .ok (some s))
      (Value.init (Option String) Option.none true Option.none "DJANGO" false)
      (fun _ => some "x") "NAME").1
      { default := Option.none, environ := true, environ_pfx := "DJANGO",
        environ_name := Option.none, environ_required := false,
        destination_name := some "NAME", cached := some (some "x") }
      (some "x") rfl,
   (C4_idempotent_resolution (Option String) (fun s => .ok (some s))
      { default := Option.none, environ := true, environ_pfx := "DJANGO",
        environ_name := Option.none, environ_required := false,
        destination_name := some "NAME", cached := some (some "x") }
      (fun _ => some "x") "NAME").2 (some "x") rfl (fun _ => Option.none)⟩

/-! ## Claim C7 -/

/-- C7: constructing a Secret descriptor with a non-null static default
fails immediately with Django's `ImproperlyConfigured` (the spec's
`ConfigurationError`); resolving a constructed Secret descriptor raises
`ValueRetrievalError` both when its environment variable is absent and when
the resolved value is the empty string. -/
theorem C7_secret_semantics (d : Option String) (en : Option String) (pfx : String)
    (v : Value (Option String)) (env : Env) (name : String) :
    (d ≠ Option.none →
      SecretValue.init d en pfx =
        .error (.configurationError
          "Secret values are only allowed to be set as environment variables")) ∧
    (SecretValue.init d en pfx = .ok v →
      (env (full_environ_name_at (Option String) v name) = Option.none →
        SecretValue.setup v env name = .error .retrievalError) ∧
      (env (full_environ_name_at (Option String) v name) = some "" →
        SecretValue.setup v env name = .error .retrievalError)) := by
  constructor
  · intro hd
    simp [SecretValue.init, Value.init, hd]
  · intro hv
    have hd : d = Option.none := by
      by_cases hd : d = Option.none
      · exact hd
      · simp [SecretValue.init, Value.init, hd] at hv
    subst hd
    simp only [SecretValue.init, Value.init] at hv
    rw [if_neg (by simp)] at hv
    simp only [Except.ok.injEq] at hv
    constructor
    · intro habs
      rw [← hv] at habs ⊢
      simp only [SecretValue.setup]
      rw [Value.setup_eq]
      simp [habs]
    · intro hemp
      rw [← hv] at hemp ⊢
      simp only [SecretValue.setup]
      rw [Value.setup_eq]
      simp [hemp, pyTruthy]

/-- Witness for C7: a Secret with default `"x"` is rejected at construction;
a constructed Secret raises the retrieval error over an empty environment
and over an environment holding the empty string. -/
theorem C7_secret_semantics_witness :
    SecretValue.init (some "x") Option.none "DJANGO" =
      .error (.configurationError
        "Secret values are only allowed to be set as environment variables") ∧
    SecretValue.setup
      { default := Option.none, environ := true, environ_pfx := "DJANGO",
        environ_name := Option.none, environ_required := true,
        destination_name := Option.none, cached := Option.none }
      (fun _ => Option.none) "SECRET_KEY" = .error .retrievalError ∧
    SecretValue.setup
      { default := Option.none, environ := true, environ_pfx := "DJANGO",
        environ_name := Option.none, environ_required := true,
        destination_name := Option.none, cached := Option.none }
      (fun _ => some "") "SECRET_KEY" = .error .retrievalError :=
  ⟨(C7_secret_semantics (some "x") Option.none "DJANGO"
      (Value.init (Option String) Option.none true Option.none "DJANGO" true)
      (fun _ => Option.none) "SECRET_KEY").1 (by decide),
   ((C7_secret_semantics Option.none Option.none "DJANGO"
      { default := Option.none, environ := true, environ_pfx := "DJANGO",
        environ_name := Option.none, environ_required := true,
        destination_name := Option.none, cached := Option.none }
      (fun _ => Option.none) "SECRET_KEY").2 rfl).1 rfl,
   ((C7_secret_semantics Option.none Option.none "DJANGO"
      { default := Option.none, environ := true, environ_pfx := "DJANGO",
        environ_name := Option.none, environ_required := true,
        destination_name := Option.none, cached := Option.none }
      (fun _ => some "") "SECRET_KEY").2 rfl).2 rfl⟩

/-! ## Claim C2 -/

/-- C2: any exception raised during the injection sequence (pre_setup,
setup, instantiation and attribute enumeration, attribute resolution,
provenance recording, post_setup) is caught and re-raised as a
`ConfigurationError` whose message embeds the schema's qualified name
`{module}.{class}` between fixed text, and which is chained to the original
exception as its cause (so the original traceback remains inspectable
through `__cause__`). -/
theorem C2_error_chaining (mod_name class_name : String) (ops : SchemaOps)
    (m : NSpace PyObj) (e : Exc)
    (h : injectBody mod_name class_name ops m = .error e) :
    exec_module mod_name class_name ops m =
      .error (.configurationError
        ("Couldn\x27t setup configuration \x27" ++ (mod_name ++ "." ++ class_name)
          ++ "\x27")
        (some e)) := by
  simp only [exec_module, reraise, h]

/-- Witness for C2: a schema whose `pre_setup` hook raises is reported as a
`ConfigurationError` naming `mysite.settings.Development` and chained to the
original exception. -/
theorem C2_error_chaining_witness :
    exec_module "mysite.settings" "Development"
      { pre_setup := .error (.exc "boom"), cls_setup := .ok (),
        make_instance := .ok [], post_setup := .ok () }
      (fun _ => Option.none) =
      .error (.configurationError
        ("Couldn\x27t setup configuration \x27"
          ++ ("mysite.settings" ++ "." ++ "Development") ++ "\x27")
        (some (.exc "boom"))) :=
  C2_error_chaining "mysite.settings" "Development"
    { pre_setup := .error (.exc "boom"), cls_setup := .ok (),
      make_instance := .ok [], post_setup := .ok () }
    (fun _ => Option.none) (.exc "boom") rfl

/-! ## Claim C8 -/

/-- Counterexample to C8 as stated: the empty raw string is not a
well-formed literal (`ast.literal_eval` rejects it), yet `to_python`
returns the empty dict instead of raising a `ValueProcessingError`. -/
theorem C8_dict_counterexample :
    literalEval "" = .error .syntaxError ∧
    DictValue.to_python "" = .ok [] ∧
    DictValue.to_python "" ≠ .error (.processingError "" Option.none) :=
  ⟨rfl, rfl, fun h => Except.noConfusion h⟩

/-- C8 (amended): the empty raw string short-circuits to the empty dict
without parsing; otherwise the string is given to `ast.literal_eval`, and a
value-level parse failure (a syntactically valid expression that is not a
literal) or a parsed non-dict result raises `ValueProcessingError`, while a
syntax-level failure propagates as an uncaught `SyntaxError`; a parsed dict
is returned. -/
theorem C8_dict_to_python (value : String) :
    (value = "" → DictValue.to_python value = .ok []) ∧
    (value ≠ "" → literalEval value = .error .valueError →
      DictValue.to_python value = .error (.processingError value Option.none)) ∧
    (value ≠ "" → literalEval value = .error .syntaxError →
      DictValue.to_python value = .error (.uncaught "SyntaxError")) ∧
    (∀ xs, value ≠ "" → literalEval value = .ok (.dict xs) →
      DictValue.to_python value = .ok xs) ∧
    (∀ r, value ≠ "" → literalEval value = .ok r → (∀ xs, r ≠ PyLit.dict xs) →
      DictValue.to_python value = .error (.processingError value Option.none)) := by
  refine ⟨?_, ?_, ?_, ?_, ?_⟩
  · intro hv
    simp [DictValue.to_python, hv]
  · intro hv hlit
    simp [DictValue.to_python, hv, hlit]
  · intro hv hlit
    simp [DictValue.to_python, hv, hlit]
  · intro xs hv hlit
    simp [DictValue.to_python, hv, hlit]
  · intro r hv hlit hnd
    simp only [DictValue.to_python]
    rw [if_neg hv, hlit]
    cases r with
    | dict xs => exact absurd rfl (hnd xs)
    | int n => rfl
    | str s => rfl
    | bool b => rfl
    | noneV => rfl
    | list xs => rfl
    | tuple xs => rfl

/-- Witness for C8 (amended) at concrete inputs: the empty string, a name
expression, a well-formed dict literal and a non-dict literal. -/
theorem C8_dict_to_python_witness :
    DictValue.to_python "" = .ok [] ∧
    DictValue.to_python "foo" = .error (.processingError "foo" Option.none) ∧
    DictValue.to_python "\x7b'a': 1\x7d" = .ok [(.str "a", .int 1)] ∧
    DictValue.to_python "[1]" = .error (.processingError "[1]" Option.none) :=
  ⟨(C8_dict_to_python "").1 rfl,
   (C8_dict_to_python "foo").2.1 (by decide) rfl,
   (C8_dict_to_python "\x7b'a': 1\x7d").2.2.2.1 [(.str "a", .int 1)] (by decide) rfl,
   (C8_dict_to_python "[1]").2.2.2.2 (.list [.int 1]) (by decide) rfl
     (fun xs h => PyLit.noConfusion h)⟩

/-! ## Claim C9 -/

/-- The sequence-type wrapper is injective. -/
lemma SeqTy.wrap_inj (st : SeqTy) (a b : List PyLit) (h : st.wrap a = st.wrap b) :
    a = b := by
  cases st <;> simpa [SeqTy.wrap] using h

/-- A successful conversion loop relates input and output elementwise by the
converter. -/
lemma convertLoop_forall2 (c : Conv) (r : String) :
    ∀ (xs ys : List PyLit), convertLoop c r xs = .ok ys →
      List.Forall₂ (fun x y => c x = .ok y) xs ys := by
  intro xs
  induction xs with
  | nil =>
    intro ys h
    simp only [convertLoop, Except.ok.injEq] at h
    subst h
    exact List.Forall₂.nil
  | cons x xs ih =>
    intro ys h
    simp only [convertLoop] at h
    cases hc : c x with
    | error e =>
      simp only [hc] at h
      exact (Except.noConfusion h)
    | ok y =>
      simp only [hc] at h
      cases hrec : convertLoop c r xs with
      | error e =>
        simp only [hrec] at h
        exact (Except.noConfusion h)
      | ok ys2 =>
        simp only [hrec, Except.ok.injEq] at h
        subst h
        exact List.Forall₂.cons hc (ih ys2 hrec)

/-- Inversion of a successful single-level `_convert`. -/
lemma SequenceValue.convert_ok (st : SeqTy) (c : Conv) (sep : String)
    (es : List PyLit) (y : PyLit) (h : SequenceValue._convert st c sep es = .ok y) :
    ∃ zs, convertLoop c (joinRaw sep es) es = .ok zs ∧ y = st.wrap zs := by
  simp only [SequenceValue._convert] at h
  cases hcl : convertLoop c (joinRaw sep es) es with
  | error e =>
    simp only [hcl] at h
    exact (Except.noConfusion h)
  | ok zs =>
    simp only [hcl, Except.ok.injEq] at h
    exact ⟨zs, rfl, h.symm⟩

/-- A successful nested conversion loop relates groups and converted groups:
each group is iterated, converted elementwise and wrapped. -/
lemma nestedLoop_forall2 (st : SeqTy) (c : Conv) (sep : String) :
    ∀ (items ys : List PyLit), nestedLoop st c sep items = .ok ys →
      List.Forall₂ (fun g y => ∃ es zs, pyIter g = .ok es ∧ y = st.wrap zs ∧
        List.Forall₂ (fun x z => c x = .ok z) es zs) items ys := by
  intro items
  induction items with
  | nil =>
    intro ys h
    simp only [nestedLoop, Except.ok.injEq] at h
    subst h
    exact List.Forall₂.nil
  | cons i is ih =>
    intro ys h
    simp only [nestedLoop] at h
    cases hit : pyIter i with
    | error e =>
      simp only [hit] at h
      exact (Except.noConfusion h)
    | ok es =>
      simp only [hit] at h
      cases hcv : SequenceValue._convert st c sep es with
      | error e =>
        simp only [hcv] at h
        exact (Except.noConfusion h)
      | ok y =>
        simp only [hcv] at h
        cases hrec : nestedLoop st c sep is with
        | error e =>
          simp only [hrec] at h
          exact (Except.noConfusion h)
        | ok ys2 =>
          simp only [hrec, Except.ok.injEq] at h
          subst h
          obtain ⟨zs, hz1, hz2⟩ := SequenceValue.convert_ok st c sep es y hcv
          exact List.Forall₂.cons ⟨es, zs, hit, hz2, convertLoop_forall2 c _ es zs hz1⟩
            (ih ys2 hrec)

/-- C9: sequence and nested-sequence construction normalizes the static
default into the declared sequence type (a null default becomes the empty
sequence, any other default is poured into the sequence type); when a
per-element converter is configured it is applied to the default's elements
at construction time — for the nested variant groupwise when the default is
pre-nested, elementwise when it is flat — so that the stored default has the
same post-conversion shape (elementwise converter images wrapped in the
sequence type) as environment-parsed values produced by `to_python`. -/
theorem C9_sequence_default_normalization (st : SeqTy) (sep : String) (c : Conv)
    (ds : List PyLit) :
    (SequenceValue.init st sep Option.none Option.none = .ok (st.wrap []) ∧
     SingleNestedSequenceValue.init st sep Option.none Option.none = .ok (st.wrap [])) ∧
    SequenceValue.init st sep Option.none (some ds) = .ok (st.wrap ds) ∧
    (∀ ys, SequenceValue.init st sep (some c) (some ds) = .ok (st.wrap ys) →
      List.Forall₂ (fun x y => c x = .ok y) ds ys) ∧
    (∀ ys hd tl, ds = hd :: tl → st.matches hd = false →
      SingleNestedSequenceValue.init st sep (some c) (some ds) = .ok (st.wrap ys) →
      List.Forall₂ (fun x y => c x = .ok y) ds ys) ∧
    (∀ ys hd tl, ds = hd :: tl → st.matches hd = true →
      SingleNestedSequenceValue.init st sep (some c) (some ds) = .ok (st.wrap ys) →
      List.Forall₂ (fun g y => ∃ es zs, pyIter g = .ok es ∧ y = st.wrap zs ∧
        List.Forall₂ (fun x z => c x = .ok z) es zs) ds ys) ∧
    (∀ value ys, SequenceValue.to_python st sep (some c) value = .ok (st.wrap ys) →
      List.Forall₂ (fun x y => c x = .ok y)
        ((((pySplit sep (pyStrip value)).map pyStrip).filter
          (fun v => v ≠ "")).map PyLit.str) ys) := by
  refine ⟨⟨rfl, rfl⟩, rfl, ?_, ?_, ?_, ?_⟩
  · intro ys h
    have h' : SequenceValue._convert st c sep ds = .ok (st.wrap ys) := h
    obtain ⟨zs, hz1, hz2⟩ := SequenceValue.convert_ok st c sep ds _ h'
    rw [SeqTy.wrap_inj st ys zs hz2]
    exact convertLoop_forall2 c _ ds zs hz1
  · intro ys hd tl hds hm h
    subst hds
    have h' : SingleNestedSequenceValue._convert st c sep (hd :: tl) = .ok (st.wrap ys) := h
    simp only [SingleNestedSequenceValue._convert, List.head?, hm, Bool.false_eq_true,
      if_false] at h'
    obtain ⟨zs, hz1, hz2⟩ := SequenceValue.convert_ok st c sep (hd :: tl) _ h'
    rw [SeqTy.wrap_inj st ys zs hz2]
    exact convertLoop_forall2 c _ (hd :: tl) zs hz1
  · intro ys hd tl hds hm h
    subst hds
    have h' : SingleNestedSequenceValue._convert st c sep (hd :: tl) = .ok (st.wrap ys) := h
    simp only [SingleNestedSequenceValue._convert, List.head?, hm, if_true] at h'
    cases hnl : nestedLoop st c sep (hd :: tl) with
    | error e =>
      simp only [hnl] at h'
      exact (Except.noConfusion h')
    | ok seqs =>
      simp only [hnl, Except.ok.injEq] at h'
      rw [SeqTy.wrap_inj st ys seqs h'.symm]
      exact nestedLoop_forall2 st c sep (hd :: tl) seqs hnl
  · intro value ys h
    have h' : SequenceValue._convert st c sep
        ((((pySplit sep (pyStrip value)).map pyStrip).filter
          (fun v => v ≠ "")).map PyLit.str) = .ok (st.wrap ys) := h
    obtain ⟨zs, hz1, hz2⟩ := SequenceValue.convert_ok st c sep _ _ h'
    rw [SeqTy.wrap_inj st ys zs hz2]
    exact convertLoop_forall2 c _ _ zs hz1

/-- Witness for C9: a concrete flat default `["a", "b"]` with the identity
converter is stored converted elementwise. -/
theorem C9_sequence_default_normalization_witness :
    SequenceValue.init .list "," (some (fun x => .ok x))
        (some [.str "a", .str "b"]) = .ok (.list [.str "a", .str "b"]) ∧
    List.Forall₂ (fun x y => (Except.ok x : Except Unit PyLit) = .ok y)
      [PyLit.str "a", PyLit.str "b"] [PyLit.str "a", PyLit.str "b"] :=
  ⟨rfl,
   (C9_sequence_default_normalization .list "," (fun x => .ok x)
      [.str "a", .str "b"]).2.2.1 [.str "a", .str "b"] rfl⟩

/-! ## Claim C10 -/

/-- C10: injecting a Path descriptor through `setup_value` writes the
descriptor's cached value — the raw environment (or default) string as
stored by the base setup — into the target namespace, while
`PathValue.setup`'s return value is the tilde-expanded absolute path, which
is not what gets injected. -/
theorem C10_setup_value_injects_cached (fsys : String → Bool) (home cwd : String)
    (v : Value (Option String)) (env : Env) (target : NSpace (Option String))
    (name raw d : String) :
    (v.environ = true →
      env (full_environ_name_at (Option String) v name) = some raw →
      fsys (expanduser home raw) = true →
      PathValue.setup fsys home cwd true v env name =
        .ok ({ v with destination_name := some name, cached := some (some raw) },
             abspath cwd (expanduser home raw)) ∧
      setup_value (Option String) String (fun s => .ok (some s))
        (PathValue.setup fsys home cwd true) false (fun _ => [])
        target name v env =
        .ok (NSpace.set (Option String) target name (some raw),
             { v with destination_name := some name, cached := some (some raw) }) ∧
      NSpace.set (Option String) target name (some raw) name = some (some raw)) ∧
    (v.environ = true →
      env (full_environ_name_at (Option String) v name) = Option.none →
      v.environ_required = false → v.default = some d →
      fsys (expanduser home d) = true →
      PathValue.setup fsys home cwd true v env name =
        .ok ({ v with destination_name := some name, cached := some (some d) },
             abspath cwd (expanduser home d)) ∧
      setup_value (Option String) String (fun s => .ok (some s))
        (PathValue.setup fsys home cwd true) false (fun _ => [])
        target name v env =
        .ok (NSpace.set (Option String) target name (some d),
             { v with destination_name := some name, cached := some (some d) })) := by
  constructor
  · intro he hraw hex
    have hbase : Value.setup (Option String) (fun s => .ok (some s)) v env name =
        .ok ({ v with destination_name := some name, cached := some (some raw) },
             some raw) := by
      rw [Value.setup_eq]
      simp [he, hraw]
    have hpath : PathValue.setup fsys home cwd true v env name =
        .ok ({ v with destination_name := some name, cached := some (some raw) },
             abspath cwd (expanduser home raw)) := by
      simp only [PathValue.setup, hbase]
      simp [hex]
    refine ⟨hpath, ?_, ?_⟩
    · simp [setup_value, hpath, Value.get]
    · simp [NSpace.set]
  · intro he hraw hreq hdef hex
    have hbase : Value.setup (Option String) (fun s => .ok (some s)) v env name =
        .ok ({ v with destination_name := some name, cached := some (some d) },
             some d) := by
      rw [Value.setup_eq]
      simp [he, hraw, hreq, hdef]
    have hpath : PathValue.setup fsys home cwd true v env name =
        .ok ({ v with destination_name := some name, cached := some (some d) },
             abspath cwd (expanduser home d)) := by
      simp only [PathValue.setup, hbase]
      simp [hex]
    refine ⟨hpath, ?_⟩
    simp [setup_value, hpath, Value.get]

/-- Witness for C10 at a concrete input: the environment holds `~/d`; the
injected attribute is the raw `~/d` while `setup` returned the absolute
`/home/u/d`, and the two differ. -/
theorem C10_setup_value_injects_cached_witness :
    PathValue.setup (fun _ => true) "/home/u" "/cwd" true
      (Value.init (Option String) Option.none true Option.none "DJANGO" false)
      (fun _ => some "~/d") "DATA_DIR" =
      .ok ({ Value.init (Option String) Option.none true Option.none "DJANGO" false with
             destination_name := some "DATA_DIR", cached := some (some "~/d") },
           abspath "/cwd" (expanduser "/home/u" "~/d")) ∧
    setup_value (Option String) String (fun s => .ok (some s))
      (PathValue.setup (fun _ => true) "/home/u" "/cwd" true) false (fun _ => [])
      (fun _ => Option.none) "DATA_DIR"
      (Value.init (Option String) Option.none true Option.none "DJANGO" false)
      (fun _ => some "~/d") =
      .ok (NSpace.set (Option String) (fun _ => Option.none) "DATA_DIR" (some "~/d"),
           { Value.init (Option String) Option.none true Option.none "DJANGO" false with
             destination_name := some "DATA_DIR", cached := some (some "~/d") }) ∧
    NSpace.set (Option String) (fun _ => Option.none) "DATA_DIR" (some "~/d")
      "DATA_DIR" = some (some "~/d") :=
  (C10_setup_value_injects_cached (fun _ => true) "/home/u" "/cwd"
    (Value.init (Option String) Option.none true Option.none "DJANGO" false)
    (fun _ => some "~/d") (fun _ => Option.none) "DATA_DIR" "~/d" "").1
    rfl rfl rfl

end Configurations
